import Mathlib

/-!
Shallow embedding of the weather-API core (tRPC router + Redis cache layer +
upstream fetcher) from:
  - src/packages/api/src/routers/weather.ts   (getCacheKey, checkRateLimit,
    weatherRouter.getCurrent, weatherRouter.clearCache)
  - src/unnamed/part_001 (lib/redis.ts: getCached, setCached, delCached)
  - src/packages/api/src/lib/weather/weather.ts (fetchWeather)

Strings are embedded as `List Char` (JS strings), with `toLowerCase` as a
character map and `trim` as dropping leading/trailing whitespace.
The Redis backend is modelled as an explicit store (key/value maps) plus a
`Behavior` record saying which backend calls fail in a given execution; the
raw client operations (`client.incr`, `client.expire`, `client.get`,
`client.setex`, `client.del`) return `Except RedisErr _`, and the try/catch
wrappers in the source are translated as matches on those `Except` results.
Each operation also produces a trace of the backend/upstream calls it issued,
so that "no upstream fetch happened" or "the TTL was set exactly once" are
statements about the trace.
-/

namespace WeatherApi

/-- JS strings, embedded as lists of characters. -/
abbrev Str := List Char

/-- Embedding of `String.prototype.toLowerCase` (ASCII range, via `Char.toLower`). -/
def jsToLower (s : Str) : Str := s.map Char.toLower

/-- The whitespace predicate used by `trim`. -/
def isWs (c : Char) : Bool := c.isWhitespace

/-- Embedding of `String.prototype.trim`: drop leading and trailing whitespace. -/
def jsTrim (s : Str) : Str :=
  ((s.dropWhile isWs).reverse.dropWhile isWs).reverse

/-- Translation of `getCacheKey` from routers/weather.ts:
`return ` followed by the template `weather:${location.toLowerCase().trim()}`. -/
def getCacheKey (location : Str) : Str :=
  "weather:".toList ++ jsTrim (jsToLower location)

/-- The `ms` library: milliseconds in one hour. -/
def msOneHour : Nat := 60 * 60 * 1000

/-- The `ms` library: milliseconds in twelve hours. -/
def msTwelveHours : Nat := 12 * 60 * 60 * 1000

/-- Constant `CACHE_TTL_SECONDS = ms("12h") / 1000` from routers/weather.ts. -/
def CACHE_TTL_SECONDS : Nat := msTwelveHours / 1000

/-- The rate-limit window, `ms("1h") / 1000`, from `checkRateLimit`. -/
def WINDOW_SECONDS : Nat := msOneHour / 1000

/-- The rate limit, `limit = 100` requests per hour, from `checkRateLimit`. -/
def RATE_LIMIT : Nat := 100

/-- The rate-limit key, `ratelimit:weather:${identifier}`. -/
def rlKey (identifier : Str) : Str := "ratelimit:weather:".toList ++ identifier

/-- Translation of `identifier = ctx.req?.header("x-forwarded-for") || "default"`:
a missing header, and also an empty header (falsy in JS), degrade to
the shared `"default"` bucket. -/
def resolveIdentifier (hdr : Option Str) : Str :=
  match hdr with
  | none => "default".toList
  | some s => if s = [] then "default".toList else s

/-- The normalized weather payload (`WeatherData` from lib/weather/types.ts).
Modelled from the spec: types.ts itself is not in the source tree; the spec
lists the normalized fields (resolved location name, temperature, conditions,
humidity, wind speed, description, coordinates, provider query cost).  The
core treats the value as an opaque cacheable payload, so numeric fields are
embedded as integers. -/
structure WeatherData where
  location : Str
  temperature : Int
  conditions : Str
  humidity : Int
  windSpeed : Int
  description : Str
  queryCost : Int
  latitude : Int
  longitude : Int
deriving DecidableEq

/-- A cache entry: the stored (serialized) value together with the TTL it
was written with (`setex key ttl value`). -/
structure CacheEntry where
  value : WeatherData
  ttl : Nat
deriving DecidableEq

/-- The Redis store state: the weather cache entries, the rate-limit
counters (absent key = 0, as Redis INCR creates missing keys at 0), and the
expiration attached to each rate-limit counter (`none` = no TTL set). -/
structure Store where
  cache : Str → Option CacheEntry
  counters : Str → Nat
  counterTtl : Str → Option Nat

/-- The store with no keys. -/
def emptyStore : Store :=
  { cache := fun _ => none, counters := fun _ => 0, counterTtl := fun _ => none }

/-- A backend-level Redis failure (connection, timeout, deserialization). -/
inductive RedisErr where
  | backendFailure
deriving DecidableEq

/-- What the upstream weather provider does on this call: respond with an
HTTP status and body, time out, or fail at the network level. -/
inductive UpstreamResponse where
  | resp (status : Nat) (d : WeatherData)
  | timeout
  | netFail
deriving DecidableEq

/-- Which backend calls fail in this execution, and how the upstream
provider behaves.  Each `getCurrent` call makes at most one of each backend
call, so one flag per operation suffices. -/
structure Behavior where
  incrFails : Bool
  expireFails : Bool
  cacheGetFails : Bool
  cacheSetFails : Bool
  delFails : Bool
  upstream : UpstreamResponse
deriving DecidableEq

/-- The trace of backend/upstream calls an operation issued, in order.
`logError` records a `console.error` in a catch block. -/
inductive Op where
  | incr (k : Str)
  | expire (k : Str) (seconds : Nat)
  | get (k : Str)
  | setex (k : Str) (ttl : Nat)
  | del (k : Str)
  | fetch (location : Str)
  | logError
deriving DecidableEq

/-- Operation `client.incr(key)`: increments the counter (creating it at 0 first) and
returns the post-increment value; may fail at the backend level. -/
def clientIncr (b : Behavior) (st : Store) (k : Str) : Except RedisErr (Nat × Store) :=
  if b.incrFails then .error .backendFailure
  else
    let v := st.counters k + 1
    .ok (v, { st with counters := fun q => if q = k then v else st.counters q })

/-- Operation `client.expire(key, seconds)`: sets the expiration of the key; may fail. -/
def clientExpire (b : Behavior) (st : Store) (k : Str) (seconds : Nat) :
    Except RedisErr Store :=
  if b.expireFails then .error .backendFailure
  else .ok { st with counterTtl := fun q => if q = k then some seconds else st.counterTtl q }

/-- Operation `client.get(key)` plus `JSON.parse`: reads the entry; may fail. -/
def clientGet (b : Behavior) (st : Store) (k : Str) :
    Except RedisErr (Option CacheEntry) :=
  if b.cacheGetFails then .error .backendFailure else .ok (st.cache k)

/-- Operation `client.setex(key, ttl, JSON.stringify(value))`: writes the entry with
an expiration; may fail. -/
def clientSetex (b : Behavior) (st : Store) (k : Str) (ttl : Nat) (v : WeatherData) :
    Except RedisErr Store :=
  if b.cacheSetFails then .error .backendFailure
  else .ok { st with cache := fun q => if q = k then some ⟨v, ttl⟩ else st.cache q }

/-- Operation `client.del(key)`: removes the entry if present; may fail. -/
def clientDel (b : Behavior) (st : Store) (k : Str) : Except RedisErr Store :=
  if b.delFails then .error .backendFailure
  else .ok { st with cache := fun q => if q = k then none else st.cache q }

/-- Translation of `getCached` from lib/redis.ts: `client.get` inside try/catch; any
backend failure is logged and turned into `null` (not found). -/
def getCached (b : Behavior) (st : Store) (k : Str) : Option WeatherData × List Op :=
  match clientGet b st k with
  | .error _ => (none, [.get k, .logError])
  | .ok none => (none, [.get k])
  | .ok (some e) => (some e.value, [.get k])

/-- Translation of `setCached` from lib/redis.ts: `client.setex` inside try/catch; on
backend failure the write is dropped, the error logged, and the function
returns normally. -/
def setCached (b : Behavior) (st : Store) (k : Str) (v : WeatherData) (ttl : Nat) :
    Store × List Op :=
  match clientSetex b st k ttl v with
  | .error _ => (st, [.setex k ttl, .logError])
  | .ok st1 => (st1, [.setex k ttl])

/-- Translation of `delCached` from lib/redis.ts: `client.del` inside try/catch; on backend
failure the deletion is dropped, the error logged, and the function returns
normally (it never throws). -/
def delCached (b : Behavior) (st : Store) (k : Str) : Store × List Op :=
  match clientDel b st k with
  | .error _ => (st, [.del k, .logError])
  | .ok st1 => (st1, [.del k])

/-- The result of the rate-limit admission check: the request proceeds, or a
TOO_MANY_REQUESTS TRPCError is thrown. -/
inductive RLResult where
  | allowed
  | exceeded
deriving DecidableEq

/-- Translation of `checkRateLimit` from routers/weather.ts: INCR the window counter; if
the post-increment value is 1, EXPIRE the key to the window length; if it
exceeds the limit, throw TOO_MANY_REQUESTS (rethrown past the catch); any
non-TRPC error (a Redis failure, from INCR or EXPIRE) is caught, logged, and
the request is allowed (graceful degradation). -/
def checkRateLimit (b : Behavior) (identifier : Str) (st : Store) :
    RLResult × Store × List Op :=
  let key := rlKey identifier
  match clientIncr b st key with
  | .error _ => (.allowed, st, [.incr key, .logError])
  | .ok (current, st1) =>
    if current = 1 then
      match clientExpire b st1 key WINDOW_SECONDS with
      | .error _ => (.allowed, st1, [.incr key, .expire key WINDOW_SECONDS, .logError])
      | .ok st2 =>
        if current > RATE_LIMIT then (.exceeded, st2, [.incr key, .expire key WINDOW_SECONDS])
        else (.allowed, st2, [.incr key, .expire key WINDOW_SECONDS])
    else
      if current > RATE_LIMIT then (.exceeded, st1, [.incr key])
      else (.allowed, st1, [.incr key])

/-- The error kinds the core surfaces, as in §7 of the design
(`TRPCError` codes and messages in the source). -/
inductive ErrKind where
  | invalidInput
  | upstreamAuthFailure
  | upstreamUnavailable
  | rateLimitExceeded
  | cacheInvalidationFailed
deriving DecidableEq

/-- The tRPC error codes used by the source. -/
inductive TrpcCode where
  | BAD_REQUEST
  | INTERNAL_SERVER_ERROR
  | TOO_MANY_REQUESTS
deriving DecidableEq

/-- The TRPCError code each error kind is raised with in the source. -/
def trpcCode : ErrKind → TrpcCode
  | .invalidInput => .BAD_REQUEST
  | .upstreamAuthFailure => .INTERNAL_SERVER_ERROR
  | .upstreamUnavailable => .INTERNAL_SERVER_ERROR
  | .rateLimitExceeded => .TOO_MANY_REQUESTS
  | .cacheInvalidationFailed => .INTERNAL_SERVER_ERROR

/-- The HTTP status class the transport maps each tRPC code to. -/
def codeClass : TrpcCode → Nat
  | .BAD_REQUEST => 400
  | .INTERNAL_SERVER_ERROR => 500
  | .TOO_MANY_REQUESTS => 429

/-- How an axios GET rejects: with an HTTP response status (any non-2xx
status makes axios throw an AxiosError carrying `response.status`), or with
no response at all (timeout, network failure). -/
inductive AxiosFail where
  | httpStatus (status : Nat)
  | noResponse
deriving DecidableEq

/-- Model of `axios.get(url, \x7b timeout: ms("10s") \x7d)`: a 2xx response resolves
with the body; any other status rejects with an AxiosError carrying that
status; a timeout or network failure rejects with no response attached. -/
def axiosGet (u : UpstreamResponse) : Except AxiosFail WeatherData :=
  match u with
  | .resp status d =>
      if 200 ≤ status ∧ status < 300 then .ok d else .error (.httpStatus status)
  | .timeout => .error .noResponse
  | .netFail => .error .noResponse

/-- Translation of `fetchWeather` from lib/weather/weather.ts: a single axios GET with a
10-second timeout; on rejection, `error.response?.status === 400` maps to
BAD_REQUEST "Invalid location provided", `=== 401` maps to
INTERNAL_SERVER_ERROR "Weather API authentication failed", and anything
else (timeout, network failure, other non-2xx) maps to
INTERNAL_SERVER_ERROR "Weather API request failed". -/
def fetchWeather (u : UpstreamResponse) : Except ErrKind WeatherData :=
  match axiosGet u with
  | .ok d => .ok d
  | .error (.httpStatus 400) => .error .invalidInput
  | .error (.httpStatus 401) => .error .upstreamAuthFailure
  | .error _ => .error .upstreamUnavailable

/-- The result of `weather.getCurrent`: the weather payload with its
`fromCache` tag, or a thrown error. -/
inductive GCResult where
  | ok (d : WeatherData) (fromCache : Bool)
  | err (e : ErrKind)
deriving DecidableEq

/-- Translation of `weatherRouter.getCurrent` from routers/weather.ts:
`z.string().min(1)` rejects an empty location before the handler runs (no
I/O); then `checkRateLimit` (throwing TOO_MANY_REQUESTS on exceeded), then
`getCached` on the normalized key; on a hit, return the cached value with
`fromCache: true`; on a miss, `fetchWeather` (propagating its errors), then
a fire-and-forget `setCached` (not awaited: its outcome does not reach the
response), and return the fetched value with `fromCache: false`. -/
def getCurrent (b : Behavior) (location : Str) (hdr : Option Str) (st : Store) :
    GCResult × Store × List Op :=
  if location.length < 1 then (.err .invalidInput, st, [])
  else
    let identifier := resolveIdentifier hdr
    let rl := checkRateLimit b identifier st
    if rl.1 = RLResult.exceeded then (.err .rateLimitExceeded, rl.2.1, rl.2.2)
    else
      let cacheKey := getCacheKey location
      let g := getCached b rl.2.1 cacheKey
      match g.1 with
      | some v => (.ok v true, rl.2.1, rl.2.2 ++ g.2)
      | none =>
        match fetchWeather b.upstream with
        | .error e => (.err e, rl.2.1, rl.2.2 ++ g.2 ++ [.fetch location])
        | .ok d =>
          let s := setCached b rl.2.1 cacheKey d CACHE_TTL_SECONDS
          (.ok d false, s.1, rl.2.2 ++ g.2 ++ [.fetch location] ++ s.2)

/-- The result of `weather.clearCache`. -/
inductive CCResult where
  | success
  | err (e : ErrKind)
deriving DecidableEq

/-- Translation of `weatherRouter.clearCache` from routers/weather.ts: `z.string().min(1)`
rejects an empty location; then `delCached(getCacheKey(location))` inside a
try/catch that would rethrow as INTERNAL_SERVER_ERROR "Failed to clear
cache" — but `delCached` absorbs every backend failure and never throws, so
the catch is unreachable and the procedure returns `\x7b success: true \x7d`
on every execution. -/
def clearCache (b : Behavior) (location : Str) (st : Store) :
    CCResult × Store × List Op :=
  if location.length < 1 then (.err .invalidInput, st, [])
  else
    let cacheKey := getCacheKey location
    let s := delCached b st cacheKey
    (.success, s.1, s.2)

/-- Number of upstream fetch attempts recorded in a trace. -/
def fetchCount (t : List Op) : Nat :=
  t.countP fun o => match o with | .fetch _ => true | _ => false

/-- Number of EXPIRE calls on key `k` recorded in a trace. -/
def expireCount (k : Str) (t : List Op) : Nat :=
  t.countP fun o => match o with | .expire q _ => q = k | _ => false

/-- A behavior in which every backend call succeeds and the upstream
responds 200 with payload `d`. -/
def okBehavior (d : WeatherData) : Behavior :=
  { incrFails := false, expireFails := false, cacheGetFails := false,
    cacheSetFails := false, delFails := false, upstream := .resp 200 d }

/-- A behavior in which every Redis call fails (total cache-backend outage)
while the upstream responds 200 with payload `d`. -/
def outageBehavior (d : WeatherData) : Behavior :=
  { incrFails := true, expireFails := true, cacheGetFails := true,
    cacheSetFails := true, delFails := true, upstream := .resp 200 d }

/-- A sample payload for concrete executions. -/
def sampleWeather : WeatherData :=
  { location := "London, England, United Kingdom".toList, temperature := 15,
    conditions := "Partially cloudy".toList, humidity := 72, windSpeed := 13,
    description := "Similar temperatures continuing.".toList, queryCost := 1,
    latitude := 51, longitude := 0 }

/-- Runs `n` successive admission checks for the same identifier, accumulating
the store and the trace (one window: no expiry event occurs in between). -/
def admissionRun (b : Behavior) (identifier : Str) (st : Store) : Nat → Store × List Op
  | 0 => (st, [])
  | n + 1 =>
    let s := admissionRun b identifier st n
    let r := checkRateLimit b identifier s.1
    (r.2.1, s.2 ++ r.2.2)

/-- A store holding one cached entry, at the key for "paris". -/
def hitStore : Store :=
  { emptyStore with
    cache := fun k =>
      if k = getCacheKey "paris".toList then some ⟨sampleWeather, CACHE_TTL_SECONDS⟩
      else none }

/-- All backend calls succeed except the rate-limit EXPIRE. -/
def expireFailB : Behavior := { okBehavior sampleWeather with expireFails := true }

/-- All backend calls succeed except the cache DEL. -/
def delFailB : Behavior := { okBehavior sampleWeather with delFails := true }

/-! ### Helper lemmas on key normalization -/

/-- Mapping `toLowerCase` fixes whitespace characters (they are not in `A`–`Z`). -/
theorem toLower_of_ws {c : Char} (h : isWs c = true) : Char.toLower c = c := by
  simp only [isWs, Char.isWhitespace, Bool.or_eq_true, decide_eq_true_eq] at h
  rcases h with ((h | h) | h) | h <;> subst h <;> decide

/-- Mapping `toLowerCase` fixes all-whitespace strings. -/
theorem jsToLower_of_ws {u : Str} (h : ∀ c ∈ u, isWs c = true) :
    jsToLower u = u := by
  induction u with
  | nil => rfl
  | cons a l ih =>
    simp only [jsToLower, List.map_cons]
    rw [toLower_of_ws (h a (List.mem_cons_self a l))]
    have := ih (fun c hc => h c (List.mem_cons_of_mem a hc))
    simpa [jsToLower] using this

/-- Function `trim` discards all-whitespace padding on either side. -/
theorem jsTrim_pad {p q : Str} (s : Str) (hp : ∀ c ∈ p, isWs c = true)
    (hq : ∀ c ∈ q, isWs c = true) : jsTrim (p ++ (s ++ q)) = jsTrim s := by
  unfold jsTrim
  rw [List.dropWhile_append_of_pos hp, List.dropWhile_append]
  by_cases h : (s.dropWhile isWs).isEmpty
  · have hs : s.dropWhile isWs = [] := by
      cases hd : s.dropWhile isWs with
      | nil => rfl
      | cons x xs => rw [hd] at h; simp [List.isEmpty] at h
    have hqnil : q.dropWhile isWs = [] := List.dropWhile_eq_nil_iff.mpr hq
    simp [h, hs, hqnil]
  · have hrev : ∀ c ∈ q.reverse, isWs c = true := by
      intro c hc; exact hq c (List.mem_reverse.mp hc)
    simp only [h, if_false, Bool.false_eq_true]
    rw [List.reverse_append, List.dropWhile_append_of_pos hrev]

/-- C2: the cache key is the fixed prefix `weather:` followed by the
lower-cased, whitespace-trimmed location, and any two locations that differ
only in letter case or in leading/trailing whitespace (all-whitespace
padding around cores that agree up to case) derive the same cache key. -/
theorem getCacheKey_normalization :
    (∀ s : Str, getCacheKey s = "weather:".toList ++ jsTrim (jsToLower s)) ∧
    (∀ p₁ q₁ p₂ q₂ a b : Str,
      (∀ c ∈ p₁, isWs c = true) → (∀ c ∈ q₁, isWs c = true) →
      (∀ c ∈ p₂, isWs c = true) → (∀ c ∈ q₂, isWs c = true) →
      jsToLower a = jsToLower b →
      getCacheKey (p₁ ++ a ++ q₁) = getCacheKey (p₂ ++ b ++ q₂)) := by
  refine ⟨fun s => rfl, ?_⟩
  intro p₁ q₁ p₂ q₂ a b hp₁ hq₁ hp₂ hq₂ hab
  unfold getCacheKey
  congr 1
  have key : ∀ p q c : Str, (∀ x ∈ p, isWs x = true) → (∀ x ∈ q, isWs x = true) →
      jsTrim (jsToLower (p ++ c ++ q)) = jsTrim (jsToLower c) := by
    intro p q c hp hq
    have hmap : jsToLower (p ++ c ++ q) = p ++ (jsToLower c ++ q) := by
      simp only [jsToLower, List.map_append, List.append_assoc]
      rw [show (p.map Char.toLower) = p from jsToLower_of_ws hp,
          show (q.map Char.toLower) = q from jsToLower_of_ws hq]
    rw [hmap, jsTrim_pad (jsToLower c) hp hq]
  rw [key p₁ q₁ a hp₁ hq₁, key p₂ q₂ b hp₂ hq₂, hab]

/-- Witness for C2 at the examples given in the design notes: the keys for
`"  London  "`, `"london"` and `"LONDON"` all coincide. -/
theorem getCacheKey_normalization_witness :
    getCacheKey "  London  ".toList = getCacheKey "london".toList ∧
    getCacheKey "london".toList = getCacheKey "LONDON".toList := by
  constructor
  · have h := getCacheKey_normalization.2 "  ".toList "  ".toList [] []
      "London".toList "london".toList (by decide) (by decide) (by decide)
      (by decide) (by decide)
    simpa using h
  · have h := getCacheKey_normalization.2 [] [] [] []
      "london".toList "LONDON".toList (by decide) (by decide) (by decide)
      (by decide) (by decide)
    simpa using h

/-! ### Helper lemmas on the rate limiter -/

/-- The admission check never touches the weather cache. -/
theorem checkRateLimit_cache (b : Behavior) (i : Str) (st : Store) :
    ((checkRateLimit b i st).2.1).cache = st.cache := by
  unfold checkRateLimit clientIncr clientExpire
  by_cases h1 : b.incrFails <;> by_cases h2 : b.expireFails <;>
    simp [h1, h2] <;> split_ifs <;> rfl

/-- When INCR fails, the check is a no-op that admits and logs. -/
theorem checkRateLimit_incrFail (b : Behavior) (i : Str) (st : Store)
    (h : b.incrFails = true) :
    checkRateLimit b i st = (.allowed, st, [.incr (rlKey i), .logError]) := by
  unfold checkRateLimit clientIncr
  simp [h]

/-- When INCR succeeds, the counter for this identifier is incremented. -/
theorem checkRateLimit_counters (b : Behavior) (i : Str) (st : Store)
    (hincr : b.incrFails = false) :
    ((checkRateLimit b i st).2.1).counters (rlKey i) = st.counters (rlKey i) + 1 := by
  unfold checkRateLimit clientIncr clientExpire
  by_cases h2 : b.expireFails <;> simp [hincr, h2] <;> split_ifs <;> simp

/-- When INCR succeeds, counters of other keys are untouched. -/
theorem checkRateLimit_counters_other (b : Behavior) (i : Str) (st : Store)
    (k : Str) (hk : k ≠ rlKey i) :
    ((checkRateLimit b i st).2.1).counters k = st.counters k := by
  unfold checkRateLimit clientIncr clientExpire
  by_cases h1 : b.incrFails <;> by_cases h2 : b.expireFails <;>
    simp [h1, h2] <;> split_ifs <;> simp [hk]

/-- When INCR succeeds, the request is admitted exactly when the
post-increment counter value is within the limit. -/
theorem checkRateLimit_result (b : Behavior) (i : Str) (st : Store)
    (hincr : b.incrFails = false) :
    (checkRateLimit b i st).1 =
      (if st.counters (rlKey i) + 1 ≤ RATE_LIMIT then RLResult.allowed
       else RLResult.exceeded) := by
  unfold checkRateLimit clientIncr clientExpire RATE_LIMIT
  by_cases h1 : st.counters (rlKey i) + 1 = 1 <;> by_cases h2 : b.expireFails <;>
    simp [hincr, h1, h2] <;> split_ifs <;> first | rfl | (exfalso; omega)

/-- On the creating increment (counter 0 → 1), the EXPIRE call is issued,
and the TTL ends up set exactly when that call succeeds. -/
theorem checkRateLimit_ttl_create (b : Behavior) (i : Str) (st : Store)
    (hincr : b.incrFails = false) (h0 : st.counters (rlKey i) = 0) :
    ((checkRateLimit b i st).2.1).counterTtl (rlKey i) =
      (if b.expireFails then st.counterTtl (rlKey i) else some WINDOW_SECONDS) := by
  unfold checkRateLimit clientIncr clientExpire
  by_cases h2 : b.expireFails <;> simp [hincr, h0, h2, RATE_LIMIT]

/-- On a non-creating increment, no TTL is written at all. -/
theorem checkRateLimit_ttl_noncreate (b : Behavior) (i : Str) (st : Store)
    (hincr : b.incrFails = false) (h0 : st.counters (rlKey i) ≠ 0) :
    ((checkRateLimit b i st).2.1).counterTtl = st.counterTtl := by
  have h1 : st.counters (rlKey i) + 1 ≠ 1 := by
    intro h
    exact h0 (Nat.succ_injective h)
  unfold checkRateLimit clientIncr clientExpire
  simp [hincr, h1]
  split_ifs <;> rfl

/-- Trace of the creating increment when EXPIRE succeeds. -/
theorem checkRateLimit_trace_create (b : Behavior) (i : Str) (st : Store)
    (hincr : b.incrFails = false) (hexp : b.expireFails = false)
    (h0 : st.counters (rlKey i) = 0) :
    (checkRateLimit b i st).2.2 =
      [.incr (rlKey i), .expire (rlKey i) WINDOW_SECONDS] := by
  unfold checkRateLimit clientIncr clientExpire
  simp [hincr, hexp, h0, RATE_LIMIT]

/-- Trace of a non-creating increment: just the INCR. -/
theorem checkRateLimit_trace_noncreate (b : Behavior) (i : Str) (st : Store)
    (hincr : b.incrFails = false) (h0 : st.counters (rlKey i) ≠ 0) :
    (checkRateLimit b i st).2.2 = [.incr (rlKey i)] := by
  have h1 : st.counters (rlKey i) + 1 ≠ 1 := by
    intro h
    exact h0 (Nat.succ_injective h)
  unfold checkRateLimit clientIncr clientExpire
  simp [hincr, h1]
  split_ifs <;> rfl

/-- Every operation the admission check issues is an INCR or EXPIRE of this
rate-limit key of this identifier, or an error log. -/
theorem checkRateLimit_trace_shape (b : Behavior) (i : Str) (st : Store) :
    ∀ o ∈ (checkRateLimit b i st).2.2,
      o = Op.incr (rlKey i) ∨ o = Op.expire (rlKey i) WINDOW_SECONDS ∨
      o = Op.logError := by
  unfold checkRateLimit clientIncr clientExpire
  by_cases h1 : b.incrFails <;> by_cases h2 : b.expireFails <;>
    simp [h1, h2] <;> split_ifs <;> simp

/-- The admission check never issues an upstream fetch. -/
theorem checkRateLimit_fetchCount (b : Behavior) (i : Str) (st : Store) :
    fetchCount (checkRateLimit b i st).2.2 = 0 := by
  unfold checkRateLimit clientIncr clientExpire fetchCount
  by_cases h1 : b.incrFails <;> by_cases h2 : b.expireFails <;>
    simp [h1, h2] <;> split_ifs <;> simp [List.countP]

/-- Starting from the empty store, `n` admission checks leave the counter
at `n` (INCR succeeding throughout). -/
theorem admissionRun_counters (b : Behavior) (i : Str) (n : Nat)
    (hincr : b.incrFails = false) :
    ((admissionRun b i emptyStore n).1).counters (rlKey i) = n := by
  induction n with
  | zero => rfl
  | succ n ih =>
    show ((checkRateLimit b i (admissionRun b i emptyStore n).1).2.1).counters (rlKey i)
      = n + 1
    rw [checkRateLimit_counters _ _ _ hincr, ih]

/-- Across a run of `n + 1` admission checks from the empty store, the
EXPIRE for this identifier is issued exactly once (on the first check). -/
theorem admissionRun_expireCount (b : Behavior) (i : Str) (n : Nat)
    (hincr : b.incrFails = false) (hexp : b.expireFails = false) :
    expireCount (rlKey i) (admissionRun b i emptyStore (n + 1)).2 = 1 := by
  induction n with
  | zero =>
    show expireCount (rlKey i) ([] ++ (checkRateLimit b i emptyStore).2.2) = 1
    rw [List.nil_append, checkRateLimit_trace_create b i emptyStore hincr hexp rfl]
    simp [expireCount]
  | succ n ih =>
    show expireCount (rlKey i)
        ((admissionRun b i emptyStore (n + 1)).2 ++
          (checkRateLimit b i (admissionRun b i emptyStore (n + 1)).1).2.2) = 1
    rw [checkRateLimit_trace_noncreate _ _ _ hincr
        (by rw [admissionRun_counters b i (n + 1) hincr]; exact Nat.succ_ne_zero n)]
    unfold expireCount at ih ⊢
    rw [List.countP_append, ih]
    simp

/-- C3: with a working store, each admission check increments the window
counter for the identity, and the request is admitted exactly when the
post-increment value is at most the limit (100): starting a window from
zero, the first 100 calls are admitted and the 101st is rejected with the
rate-limit error. -/
theorem rateLimit_admission :
    (∀ b i st, b.incrFails = false →
      ((checkRateLimit b i st).2.1).counters (rlKey i) = st.counters (rlKey i) + 1) ∧
    (∀ b i st, b.incrFails = false →
      ((checkRateLimit b i st).1 = RLResult.allowed ↔
        st.counters (rlKey i) + 1 ≤ RATE_LIMIT)) ∧
    (∀ b i n, b.incrFails = false →
      ((admissionRun b i emptyStore n).1).counters (rlKey i) = n) ∧
    (∀ b i k, b.incrFails = false → k < RATE_LIMIT →
      (checkRateLimit b i (admissionRun b i emptyStore k).1).1 = RLResult.allowed) ∧
    (∀ b i, b.incrFails = false →
      (checkRateLimit b i (admissionRun b i emptyStore RATE_LIMIT).1).1
        = RLResult.exceeded) := by
  refine ⟨fun b i st h => checkRateLimit_counters b i st h, fun b i st h => ?_,
    fun b i n h => admissionRun_counters b i n h, fun b i k h hk => ?_, fun b i h => ?_⟩
  · rw [checkRateLimit_result b i st h]
    split_ifs with hc <;> simp [hc]
  · rw [checkRateLimit_result _ _ _ h, admissionRun_counters b i k h]
    exact if_pos (Nat.succ_le_of_lt hk)
  · rw [checkRateLimit_result _ _ _ h, admissionRun_counters b i RATE_LIMIT h]
    exact if_neg (Nat.not_succ_le_self RATE_LIMIT)

/-- Witness for C3: with all backend calls succeeding, the first check from
an empty window leaves the counter at 1 and admits; the 101st check is
rejected. -/
theorem rateLimit_admission_witness :
    ((checkRateLimit (okBehavior sampleWeather) "default".toList emptyStore).2.1).counters
        (rlKey "default".toList) = 1 ∧
    (checkRateLimit (okBehavior sampleWeather) "default".toList
        (admissionRun (okBehavior sampleWeather) "default".toList emptyStore 0).1).1
      = RLResult.allowed ∧
    (checkRateLimit (okBehavior sampleWeather) "default".toList
        (admissionRun (okBehavior sampleWeather) "default".toList emptyStore RATE_LIMIT).1).1
      = RLResult.exceeded :=
  ⟨rateLimit_admission.1 _ _ _ rfl,
   rateLimit_admission.2.2.2.1 _ _ 0 rfl (by decide),
   rateLimit_admission.2.2.2.2 _ _ rfl⟩

/-- C4: with a working store, the TTL of the counter is set exactly once per
window — on the increment that takes the counter from 0 to 1 (which issues
the EXPIRE and leaves the TTL at the window length); every later increment
in the window issues no EXPIRE and leaves every TTL untouched, and across a
whole run of checks the EXPIRE is issued exactly once. -/
theorem rateLimit_ttl_once :
    (∀ b i st, b.incrFails = false → b.expireFails = false →
      st.counters (rlKey i) = 0 →
      ((checkRateLimit b i st).2.1).counterTtl (rlKey i) = some WINDOW_SECONDS ∧
      (checkRateLimit b i st).2.2 =
        [Op.incr (rlKey i), Op.expire (rlKey i) WINDOW_SECONDS]) ∧
    (∀ b i st, b.incrFails = false → st.counters (rlKey i) ≠ 0 →
      ((checkRateLimit b i st).2.1).counterTtl = st.counterTtl ∧
      (checkRateLimit b i st).2.2 = [Op.incr (rlKey i)]) ∧
    (∀ b i n, b.incrFails = false → b.expireFails = false →
      expireCount (rlKey i) (admissionRun b i emptyStore (n + 1)).2 = 1) := by
  refine ⟨fun b i st h1 h2 h0 => ⟨?_, checkRateLimit_trace_create b i st h1 h2 h0⟩,
    fun b i st h1 h0 => ⟨checkRateLimit_ttl_noncreate b i st h1 h0,
      checkRateLimit_trace_noncreate b i st h1 h0⟩,
    fun b i n h1 h2 => admissionRun_expireCount b i n h1 h2⟩
  rw [checkRateLimit_ttl_create b i st h1 h0, h2]
  rfl

/-- Witness for C4: with all backend calls succeeding, the first check sets
the TTL to the window length, and a run of 5 checks issues exactly one
EXPIRE. -/
theorem rateLimit_ttl_once_witness :
    ((checkRateLimit (okBehavior sampleWeather) "default".toList emptyStore).2.1).counterTtl
        (rlKey "default".toList) = some WINDOW_SECONDS ∧
    expireCount (rlKey "default".toList)
        (admissionRun (okBehavior sampleWeather) "default".toList emptyStore 5).2 = 1 :=
  ⟨(rateLimit_ttl_once.1 _ _ _ rfl rfl rfl).1,
   rateLimit_ttl_once.2.2 _ _ 4 rfl rfl⟩

/-- C8: if the INCR that backs the admission check fails, the limiter fails
open — the request is admitted, the store is untouched, and the degradation
is logged; a store outage never gets a request rejected by the limiter. -/
theorem rateLimit_fail_open (b : Behavior) (i : Str) (st : Store)
    (h : b.incrFails = true) :
    (checkRateLimit b i st).1 = RLResult.allowed ∧
    (checkRateLimit b i st).2.1 = st ∧
    Op.logError ∈ (checkRateLimit b i st).2.2 := by
  rw [checkRateLimit_incrFail b i st h]
  exact ⟨rfl, rfl, by simp⟩

/-- Witness for C8 under a total backend outage. -/
theorem rateLimit_fail_open_witness :
    (checkRateLimit (outageBehavior sampleWeather) "default".toList emptyStore).1
      = RLResult.allowed ∧
    (checkRateLimit (outageBehavior sampleWeather) "default".toList emptyStore).2.1
      = emptyStore :=
  ⟨(rateLimit_fail_open _ _ _ rfl).1, (rateLimit_fail_open _ _ _ rfl).2.1⟩

/-- C9 is refuted by the code: in the execution where the creating INCR
succeeds but the EXPIRE fails, the window counter exists (value 1) with no
expiration at all, and the next (fully successful) check still sets no
expiration — the window is unbounded, contradicting "once created, the
window counter always carries an expiration ... never infinite — including
executions in which the increment succeeds but the subsequent
expiry-set operation fails". -/
theorem rateLimit_window_unbounded_cex :
    (((checkRateLimit expireFailB "default".toList emptyStore).2.1).counters
        (rlKey "default".toList) = 1) ∧
    (((checkRateLimit expireFailB "default".toList emptyStore).2.1).counterTtl
        (rlKey "default".toList) = none) ∧
    (((checkRateLimit (okBehavior sampleWeather) "default".toList
        (checkRateLimit expireFailB "default".toList emptyStore).2.1).2.1).counterTtl
        (rlKey "default".toList) = none) := by
  refine ⟨rfl, rfl, ?_⟩
  rw [checkRateLimit_ttl_noncreate _ _ _ rfl (by decide)]
  rfl

/-- C9 as amended: on the creating increment the TTL ends up set only when
the EXPIRE succeeds — if the EXPIRE fails there, the counter carries no
expiration (the window is unbounded until the key is externally removed),
and no later increment in the window sets or refreshes a TTL. -/
theorem rateLimit_ttl_requires_expire :
    (∀ b i st, b.incrFails = false → st.counters (rlKey i) = 0 →
      ((checkRateLimit b i st).2.1).counterTtl (rlKey i) =
        (if b.expireFails then st.counterTtl (rlKey i) else some WINDOW_SECONDS)) ∧
    (∀ b i st, b.incrFails = false → st.counters (rlKey i) ≠ 0 →
      ((checkRateLimit b i st).2.1).counterTtl = st.counterTtl) :=
  ⟨fun b i st h1 h0 => checkRateLimit_ttl_create b i st h1 h0,
   fun b i st h1 h0 => checkRateLimit_ttl_noncreate b i st h1 h0⟩

/-- Witness for the amended C9: with the EXPIRE failing on the creating
increment, the TTL of the counter stays exactly as it was (none, in the empty
store). -/
theorem rateLimit_ttl_requires_expire_witness :
    ((checkRateLimit expireFailB "default".toList emptyStore).2.1).counterTtl
        (rlKey "default".toList) =
      (if expireFailB.expireFails then emptyStore.counterTtl (rlKey "default".toList)
       else some WINDOW_SECONDS) :=
  rateLimit_ttl_requires_expire.1 expireFailB "default".toList emptyStore rfl rfl

/-! ### Helper lemmas on the cache adapter and the orchestrator -/

/-- A functioning GET on a present key returns the stored value. -/
theorem getCached_hit (b : Behavior) (st : Store) (k : Str) (e : CacheEntry)
    (hb : b.cacheGetFails = false) (h : st.cache k = some e) :
    getCached b st k = (some e.value, [Op.get k]) := by
  unfold getCached clientGet
  simp [hb, h]

/-- On an absent key, GET reports a miss whether or not the backend is up. -/
theorem getCached_none (b : Behavior) (st : Store) (k : Str)
    (h : st.cache k = none) :
    (getCached b st k).1 = none := by
  unfold getCached clientGet
  by_cases hb : b.cacheGetFails <;> simp [hb, h]

/-- The trace of a GET: the call, possibly followed by an error log. -/
theorem getCached_trace (b : Behavior) (st : Store) (k : Str) :
    (getCached b st k).2 = [Op.get k] ∨
    (getCached b st k).2 = [Op.get k, Op.logError] := by
  unfold getCached clientGet
  by_cases hb : b.cacheGetFails <;> cases h : st.cache k <;> simp [hb, h]

/-- A GET issues no upstream fetch. -/
theorem getCached_fetchCount (b : Behavior) (st : Store) (k : Str) :
    fetchCount (getCached b st k).2 = 0 := by
  rcases getCached_trace b st k with h | h <;> rw [h] <;> rfl

/-- A SET issues no upstream fetch. -/
theorem setCached_fetchCount (b : Behavior) (st : Store) (k : Str)
    (v : WeatherData) (ttl : Nat) :
    fetchCount (setCached b st k v ttl).2 = 0 := by
  unfold setCached clientSetex
  by_cases hb : b.cacheSetFails <;> simp [hb] <;> rfl

/-- A SET always issues its SETEX call (even when the backend drops it). -/
theorem setCached_mem (b : Behavior) (st : Store) (k : Str)
    (v : WeatherData) (ttl : Nat) :
    Op.setex k ttl ∈ (setCached b st k v ttl).2 := by
  unfold setCached clientSetex
  by_cases hb : b.cacheSetFails <;> simp [hb]

/-- A non-empty location passes the `min(1)` input validation. -/
theorem length_valid {loc : Str} (hloc : loc ≠ []) : ¬ loc.length < 1 := by
  cases loc with
  | nil => exact absurd rfl hloc
  | cons a l => simp

/-- The full shape of an admitted cache-hit execution of `getCurrent`. -/
theorem getCurrent_hit_eq (b : Behavior) (loc : Str) (hdr : Option Str) (st : Store)
    (e : CacheEntry) (hloc : loc ≠ [])
    (hadm : (checkRateLimit b (resolveIdentifier hdr) st).1 = RLResult.allowed)
    (hb : b.cacheGetFails = false)
    (hhit : st.cache (getCacheKey loc) = some e) :
    getCurrent b loc hdr st =
      (GCResult.ok e.value true,
       (checkRateLimit b (resolveIdentifier hdr) st).2.1,
       (checkRateLimit b (resolveIdentifier hdr) st).2.2 ++ [Op.get (getCacheKey loc)]) := by
  have hc : ((checkRateLimit b (resolveIdentifier hdr) st).2.1).cache = st.cache :=
    checkRateLimit_cache b (resolveIdentifier hdr) st
  have hg : getCached b (checkRateLimit b (resolveIdentifier hdr) st).2.1 (getCacheKey loc)
      = (some e.value, [Op.get (getCacheKey loc)]) :=
    getCached_hit _ _ _ _ hb (by rw [hc]; exact hhit)
  have hne : ¬ (checkRateLimit b (resolveIdentifier hdr) st).1 = RLResult.exceeded := by
    rw [hadm]; intro h; cases h
  unfold getCurrent
  rw [if_neg (length_valid hloc), if_neg hne]
  simp only [hg]

/-- The full shape of an admitted cache-miss, fetch-succeeds execution of
`getCurrent`. -/
theorem getCurrent_miss_eq (b : Behavior) (loc : Str) (hdr : Option Str) (st : Store)
    (d : WeatherData) (hloc : loc ≠ [])
    (hadm : (checkRateLimit b (resolveIdentifier hdr) st).1 = RLResult.allowed)
    (hmiss : st.cache (getCacheKey loc) = none)
    (hfetch : fetchWeather b.upstream = .ok d) :
    getCurrent b loc hdr st =
      (GCResult.ok d false,
       (setCached b (checkRateLimit b (resolveIdentifier hdr) st).2.1
          (getCacheKey loc) d CACHE_TTL_SECONDS).1,
       (checkRateLimit b (resolveIdentifier hdr) st).2.2 ++
         (getCached b (checkRateLimit b (resolveIdentifier hdr) st).2.1 (getCacheKey loc)).2 ++
         [Op.fetch loc] ++
         (setCached b (checkRateLimit b (resolveIdentifier hdr) st).2.1
            (getCacheKey loc) d CACHE_TTL_SECONDS).2) := by
  have hc : ((checkRateLimit b (resolveIdentifier hdr) st).2.1).cache = st.cache :=
    checkRateLimit_cache b (resolveIdentifier hdr) st
  have hg : (getCached b (checkRateLimit b (resolveIdentifier hdr) st).2.1
      (getCacheKey loc)).1 = none :=
    getCached_none _ _ _ (by rw [hc]; exact hmiss)
  have hne : ¬ (checkRateLimit b (resolveIdentifier hdr) st).1 = RLResult.exceeded := by
    rw [hadm]; intro h; cases h
  unfold getCurrent
  rw [if_neg (length_valid hloc), if_neg hne]
  simp only [hg, hfetch]

/-- C1: `getCurrent` rejects an empty location before any I/O (no backend
or upstream call is issued and the store is untouched); when admitted, a
cache hit returns the stored value tagged `fromCache = true` with no
upstream fetch; on a miss with a successful fetch, the upstream fetcher is
called exactly once, the value is returned tagged `fromCache = false`, and
the SETEX cache write is issued while the response is the same for every
outcome of that write (`b.cacheSetFails` is unconstrained), so the response
neither waits on nor fails because of the cache write. -/
theorem getCurrent_flow :
    (∀ b hdr st, getCurrent b [] hdr st = (.err .invalidInput, st, [])) ∧
    (∀ b loc hdr st e, loc ≠ [] →
      (checkRateLimit b (resolveIdentifier hdr) st).1 = RLResult.allowed →
      b.cacheGetFails = false →
      st.cache (getCacheKey loc) = some e →
      (getCurrent b loc hdr st).1 = .ok e.value true ∧
      fetchCount (getCurrent b loc hdr st).2.2 = 0) ∧
    (∀ b loc hdr st d, loc ≠ [] →
      (checkRateLimit b (resolveIdentifier hdr) st).1 = RLResult.allowed →
      st.cache (getCacheKey loc) = none →
      fetchWeather b.upstream = .ok d →
      (getCurrent b loc hdr st).1 = .ok d false ∧
      fetchCount (getCurrent b loc hdr st).2.2 = 1 ∧
      Op.setex (getCacheKey loc) CACHE_TTL_SECONDS ∈ (getCurrent b loc hdr st).2.2) := by
  refine ⟨fun b hdr st => rfl, ?_, ?_⟩
  · intro b loc hdr st e hloc hadm hb hhit
    rw [getCurrent_hit_eq b loc hdr st e hloc hadm hb hhit]
    refine ⟨rfl, ?_⟩
    show fetchCount ((checkRateLimit b (resolveIdentifier hdr) st).2.2 ++
      [Op.get (getCacheKey loc)]) = 0
    have h1 := checkRateLimit_fetchCount b (resolveIdentifier hdr) st
    unfold fetchCount at h1 ⊢
    rw [List.countP_append, h1]
    rfl
  · intro b loc hdr st d hloc hadm hmiss hfetch
    rw [getCurrent_miss_eq b loc hdr st d hloc hadm hmiss hfetch]
    refine ⟨rfl, ?_, ?_⟩
    · show fetchCount ((checkRateLimit b (resolveIdentifier hdr) st).2.2 ++
        (getCached b (checkRateLimit b (resolveIdentifier hdr) st).2.1 (getCacheKey loc)).2 ++
        [Op.fetch loc] ++
        (setCached b (checkRateLimit b (resolveIdentifier hdr) st).2.1
          (getCacheKey loc) d CACHE_TTL_SECONDS).2) = 1
      have h1 := checkRateLimit_fetchCount b (resolveIdentifier hdr) st
      have h2 := getCached_fetchCount b
        (checkRateLimit b (resolveIdentifier hdr) st).2.1 (getCacheKey loc)
      have h3 := setCached_fetchCount b
        (checkRateLimit b (resolveIdentifier hdr) st).2.1 (getCacheKey loc) d
        CACHE_TTL_SECONDS
      unfold fetchCount at h1 h2 h3 ⊢
      rw [List.countP_append, List.countP_append, List.countP_append, h1, h2, h3]
      rfl
    · have hmem := setCached_mem b
        (checkRateLimit b (resolveIdentifier hdr) st).2.1 (getCacheKey loc) d
        CACHE_TTL_SECONDS
      show Op.setex (getCacheKey loc) CACHE_TTL_SECONDS ∈
        (checkRateLimit b (resolveIdentifier hdr) st).2.2 ++
        (getCached b (checkRateLimit b (resolveIdentifier hdr) st).2.1 (getCacheKey loc)).2 ++
        [Op.fetch loc] ++
        (setCached b (checkRateLimit b (resolveIdentifier hdr) st).2.1
          (getCacheKey loc) d CACHE_TTL_SECONDS).2
      simp only [List.mem_append]
      exact Or.inr hmem

/-- Witness for C1: empty location rejected with an empty trace; a hit on
the "paris" entry returns it `fromCache = true`; a miss on the empty store
fetches and returns `fromCache = false`. -/
theorem getCurrent_flow_witness :
    getCurrent (okBehavior sampleWeather) [] none emptyStore
      = (.err .invalidInput, emptyStore, []) ∧
    (getCurrent (okBehavior sampleWeather) "paris".toList none hitStore).1
      = .ok sampleWeather true ∧
    (getCurrent (okBehavior sampleWeather) "paris".toList none emptyStore).1
      = .ok sampleWeather false :=
  ⟨getCurrent_flow.1 (okBehavior sampleWeather) none emptyStore,
   (getCurrent_flow.2.1 (okBehavior sampleWeather) "paris".toList none hitStore
      ⟨sampleWeather, CACHE_TTL_SECONDS⟩ (by decide) (by decide) rfl rfl).1,
   (getCurrent_flow.2.2 (okBehavior sampleWeather) "paris".toList none emptyStore
      sampleWeather (by decide) (by decide) rfl rfl).1⟩

/-- C10: an admitted cache hit is a pure read of the weather cache: the
cache map (stored values together with their written TTLs) is left exactly
as it was — no SETEX or DEL and no fetch is issued — and every operation
the call performs is the rate-limit INCR (with its possible EXPIRE or error
log) plus the single cache GET. -/
theorem cacheHit_pure_read :
    ∀ b loc hdr st e, loc ≠ [] →
      (checkRateLimit b (resolveIdentifier hdr) st).1 = RLResult.allowed →
      b.cacheGetFails = false →
      st.cache (getCacheKey loc) = some e →
      ((getCurrent b loc hdr st).2.1).cache = st.cache ∧
      (∀ o ∈ (getCurrent b loc hdr st).2.2,
        o = Op.get (getCacheKey loc) ∨
        o = Op.incr (rlKey (resolveIdentifier hdr)) ∨
        o = Op.expire (rlKey (resolveIdentifier hdr)) WINDOW_SECONDS ∨
        o = Op.logError) := by
  intro b loc hdr st e hloc hadm hb hhit
  rw [getCurrent_hit_eq b loc hdr st e hloc hadm hb hhit]
  refine ⟨checkRateLimit_cache b (resolveIdentifier hdr) st, ?_⟩
  intro o ho
  rcases List.mem_append.mp ho with h | h
  · rcases checkRateLimit_trace_shape b (resolveIdentifier hdr) st o h with h1 | h1 | h1
    · exact Or.inr (Or.inl h1)
    · exact Or.inr (Or.inr (Or.inl h1))
    · exact Or.inr (Or.inr (Or.inr h1))
  · exact Or.inl (List.mem_singleton.mp h)

/-- Witness for C10: the hit on the "paris" entry leaves the cache exactly
as it was. -/
theorem cacheHit_pure_read_witness :
    ((getCurrent (okBehavior sampleWeather) "paris".toList none hitStore).2.1).cache
      = hitStore.cache :=
  (cacheHit_pure_read (okBehavior sampleWeather) "paris".toList none hitStore
    ⟨sampleWeather, CACHE_TTL_SECONDS⟩ (by decide) (by decide) rfl rfl).1

/-- C5 is contradicted by the code: `delCached` absorbs every backend
failure (it logs and returns normally, like Get/Set), so the try/catch in
`clearCache` that would report "Failed to clear cache" is unreachable —
`clearCache` returns success on every execution with a non-empty location,
and in particular a failed DEL still yields success while the entry is
still present (only the error log records the failure). -/
theorem clearCache_failure_not_reported :
    (∀ b st loc, (clearCache b ('p' :: loc) st).1 = CCResult.success) ∧
    ((clearCache delFailB "paris".toList hitStore).1 = CCResult.success ∧
     ((clearCache delFailB "paris".toList hitStore).2.1).cache
        (getCacheKey "paris".toList) = some ⟨sampleWeather, CACHE_TTL_SECONDS⟩ ∧
     Op.logError ∈ (clearCache delFailB "paris".toList hitStore).2.2) := by
  constructor
  · intro b st loc
    unfold clearCache delCached clientDel
    by_cases hb : b.delFails <;> simp [hb, Nat.lt_one_iff]
  · exact ⟨rfl, rfl, by decide⟩

/-- C6: cache reads and writes never propagate a backend failure: a failed
GET is absorbed into "not found" (error logged, normal return), a failed
SETEX is absorbed with the store untouched (normal return), and under a
total cache-backend outage `getCurrent` still returns the upstream data
tagged `fromCache = false` — no error escapes the cache layer. -/
theorem cache_best_effort :
    (∀ b st k, b.cacheGetFails = true →
      getCached b st k = (none, [Op.get k, Op.logError])) ∧
    (∀ b st k v ttl, b.cacheSetFails = true →
      setCached b st k v ttl = (st, [Op.setex k ttl, Op.logError])) ∧
    (∀ st loc hdr d, loc ≠ [] →
      (getCurrent (outageBehavior d) loc hdr st).1 = .ok d false) := by
  refine ⟨fun b st k h => by unfold getCached clientGet; simp [h],
    fun b st k v ttl h => by unfold setCached clientSetex; simp [h], ?_⟩
  intro st loc hdr d hloc
  have hadm : (checkRateLimit (outageBehavior d) (resolveIdentifier hdr) st).1
      = RLResult.allowed := by
    rw [checkRateLimit_incrFail (outageBehavior d) (resolveIdentifier hdr) st rfl]
  have hne : ¬ (checkRateLimit (outageBehavior d) (resolveIdentifier hdr) st).1
      = RLResult.exceeded := by
    rw [hadm]; intro h; cases h
  have hg : (getCached (outageBehavior d)
      (checkRateLimit (outageBehavior d) (resolveIdentifier hdr) st).2.1
      (getCacheKey loc)).1 = none := by
    unfold getCached clientGet; simp [outageBehavior]
  have hfetch : fetchWeather (outageBehavior d).upstream = .ok d := rfl
  unfold getCurrent
  rw [if_neg (length_valid hloc), if_neg hne]
  simp only [hg, hfetch]

/-- Witness for C6: with the whole backend down, the GET on the present
"paris" entry degrades to "not found", and the call still answers with the
upstream data `fromCache = false`. -/
theorem cache_best_effort_witness :
    getCached (outageBehavior sampleWeather) hitStore (getCacheKey "paris".toList)
      = (none, [Op.get (getCacheKey "paris".toList), Op.logError]) ∧
    (getCurrent (outageBehavior sampleWeather) "paris".toList none hitStore).1
      = .ok sampleWeather false :=
  ⟨cache_best_effort.1 (outageBehavior sampleWeather) hitStore
      (getCacheKey "paris".toList) rfl,
   cache_best_effort.2.2 hitStore "paris".toList none sampleWeather (by decide)⟩

/-- C7: a single upstream attempt per call, mapped onto the taxonomy:
2xx resolves with the data; 400 → InvalidInput (BAD_REQUEST, 400-class);
401 → UpstreamAuthFailure (INTERNAL_SERVER_ERROR, 500-class); a timeout, a
network failure, or any other non-2xx status → UpstreamUnavailable
(500-class); the three kinds are pairwise distinct; and every `getCurrent`
execution issues at most one fetch. -/
theorem fetchWeather_taxonomy :
    (∀ d status, 200 ≤ status → status < 300 →
      fetchWeather (.resp status d) = .ok d) ∧
    (∀ d : WeatherData, fetchWeather (.resp 400 d) = .error .invalidInput) ∧
    (∀ d : WeatherData, fetchWeather (.resp 401 d) = .error .upstreamAuthFailure) ∧
    (fetchWeather .timeout = .error .upstreamUnavailable) ∧
    (fetchWeather .netFail = .error .upstreamUnavailable) ∧
    (∀ d status, ¬ (200 ≤ status ∧ status < 300) → status ≠ 400 → status ≠ 401 →
      fetchWeather (.resp status d) = .error .upstreamUnavailable) ∧
    (trpcCode .invalidInput = .BAD_REQUEST ∧
     codeClass (trpcCode .invalidInput) = 400 ∧
     codeClass (trpcCode .upstreamAuthFailure) = 500 ∧
     codeClass (trpcCode .upstreamUnavailable) = 500 ∧
     ErrKind.invalidInput ≠ ErrKind.upstreamAuthFailure ∧
     ErrKind.invalidInput ≠ ErrKind.upstreamUnavailable ∧
     ErrKind.upstreamAuthFailure ≠ ErrKind.upstreamUnavailable) ∧
    (∀ b loc hdr st, fetchCount (getCurrent b loc hdr st).2.2 ≤ 1) := by
  refine ⟨?_, fun d => rfl, fun d => rfl, rfl, rfl, ?_, by decide, ?_⟩
  · intro d status h1 h2
    simp only [fetchWeather, axiosGet]
    rw [if_pos ⟨h1, h2⟩]
  · intro d status h2xx h400 h401
    simp only [fetchWeather, axiosGet]
    rw [if_neg h2xx]
    split <;> simp_all
  · intro b loc hdr st
    have h1 := checkRateLimit_fetchCount b (resolveIdentifier hdr) st
    have h2 := getCached_fetchCount b
      (checkRateLimit b (resolveIdentifier hdr) st).2.1 (getCacheKey loc)
    simp only [getCurrent]
    split_ifs with hlen hex
    · exact Nat.zero_le 1
    · show fetchCount (checkRateLimit b (resolveIdentifier hdr) st).2.2 ≤ 1
      rw [h1]; exact Nat.zero_le 1
    · rcases hg : (getCached b (checkRateLimit b (resolveIdentifier hdr) st).2.1
          (getCacheKey loc)).1 with _ | v
      · simp only [hg]
        rcases hf : fetchWeather b.upstream with e | dd <;> simp only [hf]
        · show fetchCount ((checkRateLimit b (resolveIdentifier hdr) st).2.2 ++
            (getCached b (checkRateLimit b (resolveIdentifier hdr) st).2.1
              (getCacheKey loc)).2 ++ [Op.fetch loc]) ≤ 1
          unfold fetchCount at h1 h2 ⊢
          rw [List.countP_append, List.countP_append, h1, h2]
          exact Nat.le_refl 1
        · show fetchCount ((checkRateLimit b (resolveIdentifier hdr) st).2.2 ++
            (getCached b (checkRateLimit b (resolveIdentifier hdr) st).2.1
              (getCacheKey loc)).2 ++ [Op.fetch loc] ++
            (setCached b (checkRateLimit b (resolveIdentifier hdr) st).2.1
              (getCacheKey loc) dd CACHE_TTL_SECONDS).2) ≤ 1
          have h3 := setCached_fetchCount b
            (checkRateLimit b (resolveIdentifier hdr) st).2.1 (getCacheKey loc) dd
            CACHE_TTL_SECONDS
          unfold fetchCount at h1 h2 h3 ⊢
          rw [List.countP_append, List.countP_append, List.countP_append, h1, h2, h3]
          exact Nat.le_refl 1
      · simp only [hg]
        show fetchCount ((checkRateLimit b (resolveIdentifier hdr) st).2.2 ++
          (getCached b (checkRateLimit b (resolveIdentifier hdr) st).2.1
            (getCacheKey loc)).2) ≤ 1
        unfold fetchCount at h1 h2 ⊢
        rw [List.countP_append, h1, h2]
        exact Nat.zero_le 1

/-- Witness for C7: a 200 response yields the data; a 503 response maps to
UpstreamUnavailable; a concrete `getCurrent` call issues at most one fetch. -/
theorem fetchWeather_taxonomy_witness :
    fetchWeather (.resp 200 sampleWeather) = .ok sampleWeather ∧
    fetchWeather (.resp 503 sampleWeather) = .error .upstreamUnavailable ∧
    fetchCount (getCurrent (okBehavior sampleWeather) "paris".toList none
      emptyStore).2.2 ≤ 1 :=
  ⟨fetchWeather_taxonomy.1 sampleWeather 200 (by decide) (by decide),
   fetchWeather_taxonomy.2.2.2.2.2.1 sampleWeather 503 (by decide) (by decide)
     (by decide),
   fetchWeather_taxonomy.2.2.2.2.2.2.2 (okBehavior sampleWeather) "paris".toList
     none emptyStore⟩

end WeatherApi
